import Mathlib

/-!
Verification of the HLS segment estimator (`hls_estimator.py`).

The development shallowly embeds the two core functions of the module:

* `get_video_metadata` — the metadata probe adapter.  The external world
  (file-system check, the `ffprobe` subprocess, and the `json.loads` call on
  its captured stdout) is abstracted into a `ProbeEnv` value handed to the
  function; everything from that point on (navigating the decoded JSON
  document, numeric conversions, exception propagation) is embedded
  faithfully.  Python exceptions that the source code does not catch are
  modelled by the `Except` error component.

* `calculate_segment_duration` — the segment estimator.  Its guard chain and
  arithmetic (lines 112-145 of the source) are embedded as the pure function
  `calculate_segment_duration_core` over a `VideoMetadata` value; Python
  floats are modelled as exact rationals `ℚ`, Python ints as `ℤ`.

Python builtin behaviour used by the source is modelled explicitly:
truthiness (`pyTruthy`, `pyTruthyOpt`), `==` against a string literal
(`pyEqStr`), `in` (`pyContains`), subscripting (`pySubscript`), `dict.get`
(`pyGetDefault`), iteration (`pyIter`), and `float`/`int` conversion
(`pyFloat`, `pyInt`; the string parsers cover sign, digits and a decimal
point — the forms relevant here — not exotic float syntax such as
exponents, infinities or digit underscores, which no statement below
exercises).
-/

/-- JSON values as produced by `json.loads` (Python-side view: `str`,
`int`, `float`, `bool`, `None`, `list`, `dict`). -/
inductive PyVal where
  | str (s : String)
  | intv (n : ℤ)
  | floatv (q : ℚ)
  | boolv (b : Bool)
  | null
  | list (xs : List PyVal)
  | dict (kvs : List (String × PyVal))

/-- The Python exceptions that can arise in the embedded code paths. -/
inductive PyExn where
  | valueError (msg : String)
  | typeError (msg : String)
  | keyError (key : String)
  | attributeError (msg : String)
  deriving DecidableEq

/-- Python whitespace characters stripped by `str.strip()` (as applied by
`float(...)`/`int(...)` on string arguments). -/
def isPySpace (c : Char) : Bool :=
  c == ' ' || c == '\t' || c == '\n' || c == '\r' || c == '\x0b' || c == '\x0c'

/-- Strip leading and trailing whitespace from a character list. -/
def pyStrip (cs : List Char) : List Char :=
  ((cs.dropWhile isPySpace).reverse.dropWhile isPySpace).reverse

/-- Numeric value of a digit list (most significant first). -/
def natOfDigits (cs : List Char) : ℕ :=
  cs.foldl (fun a c => 10 * a + (c.toNat - 48)) 0

/-- Parse an unsigned decimal literal, with an optional fractional part, as
accepted by Python `float()` after sign stripping. -/
def parseUnsignedFloat (cs : List Char) : Option ℚ :=
  let intPart := cs.takeWhile Char.isDigit
  let rest := cs.dropWhile Char.isDigit
  match rest with
  | [] => if intPart = [] then none else some ((natOfDigits intPart : ℚ))
  | '.' :: frac =>
      if frac.all Char.isDigit ∧ (intPart ≠ [] ∨ frac ≠ []) then
        some ((natOfDigits intPart : ℚ) + (natOfDigits frac : ℚ) / (10 : ℚ) ^ frac.length)
      else none
  | _ => none

/-- Python `float(s)` on a string: strip whitespace, optional sign, decimal
literal; `none` models a raised `ValueError`. -/
def parseFloatStr (s : String) : Option ℚ :=
  match pyStrip s.data with
  | '-' :: rest => (parseUnsignedFloat rest).map (fun q => -q)
  | '+' :: rest => parseUnsignedFloat rest
  | rest => parseUnsignedFloat rest

/-- Python `int(s)` on a string: strip whitespace, optional sign, digits
only; `none` models a raised `ValueError`. -/
def parseIntStr (s : String) : Option ℤ :=
  let body := pyStrip s.data
  let core := fun (cs : List Char) =>
    if cs ≠ [] ∧ cs.all Char.isDigit then some ((natOfDigits cs : ℤ)) else none
  match body with
  | '-' :: rest => (core rest).map (fun n => -n)
  | '+' :: rest => core rest
  | rest => core rest

/-- Truncation of a rational toward zero, as Python `int()` applied to a
float. -/
def truncQ (q : ℚ) : ℤ := if 0 ≤ q then ⌊q⌋ else ⌈q⌉

/-- Python `float(v)`. -/
def pyFloat : PyVal → Except PyExn ℚ
  | .str s =>
      match parseFloatStr s with
      | some q => .ok q
      | none => .error (.valueError ("could not convert string to float: " ++ s))
  | .intv n => .ok (n : ℚ)
  | .floatv q => .ok q
  | .boolv b => .ok (if b then 1 else 0)
  | .null => .error (.typeError "float() argument must be a string or a real number, not NoneType")
  | .list _ => .error (.typeError "float() argument must be a string or a real number, not list")
  | .dict _ => .error (.typeError "float() argument must be a string or a real number, not dict")

/-- Python `int(v)`. -/
def pyInt : PyVal → Except PyExn ℤ
  | .str s =>
      match parseIntStr s with
      | some n => .ok n
      | none => .error (.valueError ("invalid literal for int() with base 10: " ++ s))
  | .intv n => .ok n
  | .floatv q => .ok (truncQ q)
  | .boolv b => .ok (if b then 1 else 0)
  | .null => .error (.typeError "int() argument must be a string or a number, not NoneType")
  | .list _ => .error (.typeError "int() argument must be a string or a number, not list")
  | .dict _ => .error (.typeError "int() argument must be a string or a number, not dict")

/-- Python `v == lit` where `lit` is a string literal: true exactly for an
equal string (no other JSON value equals a `str`). -/
def pyEqStr : PyVal → String → Bool
  | .str a, b => a == b
  | _, _ => false

/-- Python truthiness of a JSON value. -/
def pyTruthy : PyVal → Bool
  | .str s => !(s == "")
  | .intv n => !(n == 0)
  | .floatv q => !(q == 0)
  | .boolv b => b
  | .null => false
  | .list xs => !xs.isEmpty
  | .dict kvs => !kvs.isEmpty

/-- Infix search on character lists (for Python `needle in haystack` on
strings). -/
def seqContains (needle : List Char) : List Char → Bool
  | [] => needle.isEmpty
  | c :: rest => needle.isPrefixOf (c :: rest) || seqContains needle rest

/-- Python `needle in haystack` for strings: substring test. -/
def strContains (haystack needle : String) : Bool :=
  seqContains needle.data haystack.data

/-- Python `k in v` for a string key `k`: key membership for dicts, element
membership for lists, substring for strings, `TypeError` otherwise. -/
def pyContains (k : String) : PyVal → Except PyExn Bool
  | .dict kvs => .ok (kvs.any (fun kv => kv.1 == k))
  | .list xs => .ok (xs.any (fun x => pyEqStr x k))
  | .str s => .ok (strContains s k)
  | _ => .error (.typeError "argument of type is not iterable")

/-- Python `v[k]` for a string key `k`: dict lookup (`KeyError` when
missing), `TypeError` for every other receiver. -/
def pySubscript (v : PyVal) (k : String) : Except PyExn PyVal :=
  match v with
  | .dict kvs =>
      match kvs.lookup k with
      | some w => .ok w
      | none => .error (.keyError k)
  | .list _ => .error (.typeError "list indices must be integers or slices, not str")
  | .str _ => .error (.typeError "string indices must be integers")
  | _ => .error (.typeError "object is not subscriptable")

/-- Python `v.get(k, d)`: only dicts have `get`; anything else raises
`AttributeError`. -/
def pyGetDefault (v : PyVal) (k : String) (d : PyVal) : Except PyExn PyVal :=
  match v with
  | .dict kvs => .ok ((kvs.lookup k).getD d)
  | _ => .error (.attributeError "object has no attribute get")

/-- Python iteration `for x in v`: list elements, dict keys, characters of a
string (as one-character strings), `TypeError` otherwise. -/
def pyIter : PyVal → Except PyExn (List PyVal)
  | .list xs => .ok xs
  | .dict kvs => .ok (kvs.map (fun kv => PyVal.str kv.1))
  | .str s => .ok (s.data.map (fun c => PyVal.str c.toString))
  | _ => .error (.typeError "object is not iterable")

/-- The normalized metadata value built by `get_video_metadata`
(`total_duration_sec`, `stream_bitrates_bps`, `error`). -/
structure VideoMetadata where
  total_duration_sec : ℚ
  stream_bitrates_bps : List ℤ
  error : Option String
  deriving DecidableEq

/-- Outcome of the `subprocess.run(ffprobe ...)` call together with the
`json.loads` of its captured stdout.  `jsonOutput (.error ())` is a zero-exit
run whose stdout is not valid JSON (`json.JSONDecodeError`). -/
inductive ProbeOutcome where
  | calledProcessError (stderr : String)
  | fileNotFound
  | jsonOutput (parsed : Except Unit PyVal)

/-- The ambient facts `get_video_metadata` consults: whether
`os.path.exists` succeeds for the input path, and what the probe invocation
produces. -/
structure ProbeEnv where
  fileExists : Bool
  probe : ProbeOutcome

/-- Lines 63-69 of the source: one stream's bitrate.  `stream.get('bit_rate',
'0')`, the `'N/A'` sentinel rewrite, then `int(...)` with only `ValueError`
caught (substituting 0); any other exception propagates. -/
def streamBitrate (stream : PyVal) : Except PyExn ℤ :=
  match pyGetDefault stream "bit_rate" (.str "0") with
  | .error e => .error e
  | .ok br0 =>
      let br := if pyEqStr br0 "N/A" then PyVal.str "0" else br0
      match pyInt br with
      | .ok n => .ok n
      | .error (.valueError _) => .ok 0
      | .error e => .error e

/-- The `for stream in metadata['streams']` loop body applied in order,
stopping at the first uncaught exception. -/
def collectBitrates : List PyVal → Except PyExn (List ℤ)
  | [] => .ok []
  | s :: rest =>
      match streamBitrate s with
      | .error e => .error e
      | .ok n =>
          match collectBitrates rest with
          | .error e => .error e
          | .ok ns => .ok (n :: ns)

/-- Lines 60-69: the per-stream bitrate collection (empty when the document
has no `streams` key). -/
def streamsPhase (doc : PyVal) : Except PyExn (List ℤ) :=
  match pyContains "streams" doc with
  | .error e => .error e
  | .ok false => .ok []
  | .ok true =>
      match pySubscript doc "streams" with
      | .error e => .error e
      | .ok sv =>
          match pyIter sv with
          | .error e => .error e
          | .ok items => collectBitrates items

/-- Line 72: `metadata.get('format', {}).get('bit_rate')`. -/
def formatBitRate (doc : PyVal) : Except PyExn PyVal :=
  match pyGetDefault doc "format" (.dict []) with
  | .error e => .error e
  | .ok fmtD => pyGetDefault fmtD "bit_rate" .null

/-- Lines 60-80: stream bitrates plus the container-level fallback.  The
fallback fires only when no per-stream bitrate was collected and the
duration is positive; the raw `format` bitrate must additionally be truthy,
and a `ValueError` from `int(...)` leaves the list empty. -/
def collectAllBitrates (doc : PyVal) (total_duration_sec : ℚ) : Except PyExn (List ℤ) :=
  match streamsPhase doc with
  | .error e => .error e
  | .ok bs =>
      if bs = [] ∧ 0 < total_duration_sec then
        match formatBitRate doc with
        | .error e => .error e
        | .ok fbr =>
            if pyTruthy fbr then
              match pyInt fbr with
              | .ok n => .ok [n]
              | .error (.valueError _) => .ok []
              | .error e => .error e
            else .ok []
      else .ok bs

/-- Line 55: `'format' in metadata and 'duration' in metadata['format']`
(short-circuiting `and`; either operand may raise). -/
def durationCond (doc : PyVal) : Except PyExn Bool :=
  match pyContains "format" doc with
  | .error e => .error e
  | .ok false => .ok false
  | .ok true =>
      match pySubscript doc "format" with
      | .error e => .error e
      | .ok fmt => pyContains "duration" fmt

/-- Lines 52-88 of `get_video_metadata`, applied to the decoded JSON
document.  Exceptions other than the three caught at function level
propagate as `.error`. -/
def get_video_metadata_body (doc : PyVal) : Except PyExn VideoMetadata :=
  match durationCond doc with
  | .error e => .error e
  | .ok false => .ok ⟨0, [], some "Could not determine video duration."⟩
  | .ok true =>
      match pySubscript doc "format" with
      | .error e => .error e
      | .ok fmt =>
          match pySubscript fmt "duration" with
          | .error e => .error e
          | .ok durVal =>
              match pyFloat durVal with
              | .error e => .error e
              | .ok total_duration_sec =>
                  match collectAllBitrates doc total_duration_sec with
                  | .error e => .error e
                  | .ok stream_bitrates_bps =>
                      .ok ⟨total_duration_sec, stream_bitrates_bps, none⟩

/-- Lines 43-104: the metadata probe adapter.  The `except` clauses catch
exactly `subprocess.CalledProcessError`, `json.JSONDecodeError` and
`FileNotFoundError` (the last also triggers an installation attempt, a side
effect with no influence on the returned value); exceptions raised while
navigating the decoded document are not caught and escape as `.error`. -/
def get_video_metadata (video_file_path : String) (env : ProbeEnv) :
    Except PyExn VideoMetadata :=
  if env.fileExists then
    match env.probe with
    | .calledProcessError stderr =>
        let msg :=
          if strContains stderr "No such file or directory" then
            "ffprobe error: Video file not found at " ++ video_file_path ++
              " or ffprobe itself is missing."
          else if strContains stderr "Invalid data found when processing input" then
            "ffprobe error: Invalid data for " ++ video_file_path ++
              ". File might be corrupted/not media."
          else "ffprobe command failed: " ++ stderr
        .ok ⟨0, [], some msg⟩
    | .fileNotFound =>
        .ok ⟨0, [], some "ffprobe command not found. Ensure FFmpeg is installed and in PATH."⟩
    | .jsonOutput (.error _) =>
        .ok ⟨0, [], some "Failed to parse ffprobe JSON output."⟩
    | .jsonOutput (.ok doc) => get_video_metadata_body doc
  else
    .ok ⟨0, [], some ("File not found: " ++ video_file_path)⟩

/-- Result of `calculate_segment_duration`: either the error dictionary or
the populated estimate (`error = None`). -/
inductive SegResult where
  | err (msg : String)
  | ok (max_bitrate_mbps safe_segment_duration_sec total_video_duration_sec : ℚ)
       (estimated_total_segments : ℤ)
  deriving DecidableEq

/-- The estimate's segment duration, when the computation succeeded. -/
def SegResult.safeDur : SegResult → Option ℚ
  | .ok _ s _ _ => some s
  | .err _ => none

/-- The estimate's segment count, when the computation succeeded. -/
def SegResult.segCount : SegResult → Option ℤ
  | .ok _ _ _ n => some n
  | .err _ => none

/-- Python truthiness of `metadata.get("error")`: `None` and the empty
string are falsy. -/
def pyTruthyOpt : Option String → Bool
  | none => false
  | some s => !(s == "")

/-- Lines 112-145 of `calculate_segment_duration`: the guard chain and the
estimate computation over an already obtained metadata value. -/
def calculate_segment_duration_core (metadata : VideoMetadata)
    (target_segment_size_mb : ℚ) : SegResult :=
  if pyTruthyOpt metadata.error then
    .err ("Failed to get video metadata: " ++ metadata.error.getD "")
  else if metadata.total_duration_sec ≤ 0 then
    .err "Video duration is zero or invalid. Cannot calculate segment duration."
  else if metadata.stream_bitrates_bps = [] then
    .err "No bitrate data found for the video. Cannot estimate segment size."
  else
    let total_bitrate_bps := metadata.stream_bitrates_bps.sum
    if total_bitrate_bps ≤ 0 then
      .err "Total bitrate of the video is zero or negative. Cannot calculate segment duration. The file might not be a video or audio file, or lacks bitrate information."
    else
      let total_bitrate_mbps : ℚ := (total_bitrate_bps : ℚ) / 1000000
      let target_segment_size_mbits : ℚ := target_segment_size_mb * 8
      let safe_segment_duration_sec : ℚ := target_segment_size_mbits / total_bitrate_mbps
      let total_video_duration_sec := metadata.total_duration_sec
      if safe_segment_duration_sec ≤ 0 then
        .err "Calculated segment duration is zero or negative. Check bitrate and target size."
      else
        let estimated_total_segments : ℤ :=
          ⌈total_video_duration_sec / safe_segment_duration_sec⌉
        .ok total_bitrate_mbps safe_segment_duration_sec total_video_duration_sec
          estimated_total_segments

/-- Lines 106-145: the full estimator, probing first and then running the
core computation; an exception escaping the probe escapes here as well. -/
def calculate_segment_duration (video_file_path : String) (env : ProbeEnv)
    (target_segment_size_mb : ℚ) : Except PyExn SegResult :=
  match get_video_metadata video_file_path env with
  | .error e => .error e
  | .ok metadata => .ok (calculate_segment_duration_core metadata target_segment_size_mb)

/-! ## Helper lemmas shared by the claim theorems -/

/-- On metadata that passes every guard with a positive target size, the
estimator takes the success branch and returns exactly the source formula. -/
lemma calc_core_pos_eq (m : VideoMetadata) (t : ℚ)
    (he : m.error = none) (hd : 0 < m.total_duration_sec)
    (hbs : m.stream_bitrates_bps ≠ []) (hsum : 0 < m.stream_bitrates_bps.sum)
    (ht : 0 < t) :
    calculate_segment_duration_core m t =
      .ok ((m.stream_bitrates_bps.sum : ℚ) / 1000000)
        (t * 8 / ((m.stream_bitrates_bps.sum : ℚ) / 1000000))
        m.total_duration_sec
        ⌈m.total_duration_sec / (t * 8 / ((m.stream_bitrates_bps.sum : ℚ) / 1000000))⌉ := by
  have hsumQ : (0 : ℚ) < (m.stream_bitrates_bps.sum : ℚ) := by exact_mod_cast hsum
  have hsafe : (0 : ℚ) < t * 8 / ((m.stream_bitrates_bps.sum : ℚ) / 1000000) := by positivity
  simp only [calculate_segment_duration_core]
  rw [he]
  rw [if_neg (by simp [pyTruthyOpt]), if_neg (not_le.mpr hd), if_neg hbs,
    if_neg (not_le.mpr hsum), if_neg (not_le.mpr hsafe)]

/-- A returned `get_video_metadata_body` value carrying an error message is
the missing-duration early return, whose numeric fields are placeholders. -/
lemma gvm_body_error (doc : PyVal) (m : VideoMetadata) (e : String)
    (hm : get_video_metadata_body doc = .ok m) (he : m.error = some e) :
    m.total_duration_sec = 0 ∧ m.stream_bitrates_bps = [] := by
  unfold get_video_metadata_body at hm
  split at hm
  · exact Except.noConfusion hm
  · simp only [Except.ok.injEq] at hm
    subst hm
    exact ⟨rfl, rfl⟩
  · split at hm
    · exact Except.noConfusion hm
    · split at hm
      · exact Except.noConfusion hm
      · split at hm
        · exact Except.noConfusion hm
        · split at hm
          · exact Except.noConfusion hm
          · simp only [Except.ok.injEq] at hm
            subst hm
            simp at he

/-! ## Claim theorems -/

/-- C2: for every metadata with no error, positive duration, and a non-empty
bitrate list with positive sum, and every positive target size in megabytes,
the estimator returns `max_bitrate_mbps` equal to the bitrate sum divided by
1,000,000, `safe_segment_duration_sec` equal to the target size times 8
divided by `max_bitrate_mbps`, and `estimated_total_segments` equal to the
ceiling of the duration divided by `safe_segment_duration_sec`, with no
error. -/
theorem calc_core_success_formula (m : VideoMetadata) (t : ℚ)
    (he : m.error = none) (hd : 0 < m.total_duration_sec)
    (hbs : m.stream_bitrates_bps ≠ []) (hsum : 0 < m.stream_bitrates_bps.sum)
    (ht : 0 < t) :
    calculate_segment_duration_core m t =
      .ok ((m.stream_bitrates_bps.sum : ℚ) / 1000000)
        (t * 8 / ((m.stream_bitrates_bps.sum : ℚ) / 1000000))
        m.total_duration_sec
        ⌈m.total_duration_sec / (t * 8 / ((m.stream_bitrates_bps.sum : ℚ) / 1000000))⌉ :=
  calc_core_pos_eq m t he hd hbs hsum ht

/-- Witness for C2, at Scenario A of the specification: duration 100 s,
bitrates 2,000,000 and 128,000 bps, target 22 MB. -/
theorem calc_core_success_formula_check :
    calculate_segment_duration_core ⟨100, [2000000, 128000], none⟩ 22 =
      .ok ((([2000000, 128000] : List ℤ).sum : ℚ) / 1000000)
        (22 * 8 / ((([2000000, 128000] : List ℤ).sum : ℚ) / 1000000))
        100
        ⌈(100 : ℚ) / (22 * 8 / ((([2000000, 128000] : List ℤ).sum : ℚ) / 1000000))⌉ :=
  calc_core_success_formula ⟨100, [2000000, 128000], none⟩ 22 rfl (by norm_num)
    (by simp) (by decide) (by norm_num)

/-- C3: the estimator guards short-circuit in the fixed order — truthy
metadata error, then non-positive duration, then empty bitrate list, then
non-positive bitrate sum; in particular for zero duration and every bitrate
list the result is the duration error. -/
theorem calc_core_guard_order (m : VideoMetadata) (t : ℚ) :
    (∀ e, m.error = some e → e ≠ "" →
      calculate_segment_duration_core m t =
        .err ("Failed to get video metadata: " ++ e)) ∧
    (m.error = none → m.total_duration_sec ≤ 0 →
      calculate_segment_duration_core m t =
        .err "Video duration is zero or invalid. Cannot calculate segment duration.") ∧
    (m.error = none → 0 < m.total_duration_sec → m.stream_bitrates_bps = [] →
      calculate_segment_duration_core m t =
        .err "No bitrate data found for the video. Cannot estimate segment size.") ∧
    (m.error = none → 0 < m.total_duration_sec → m.stream_bitrates_bps ≠ [] →
      m.stream_bitrates_bps.sum ≤ 0 →
      calculate_segment_duration_core m t =
        .err "Total bitrate of the video is zero or negative. Cannot calculate segment duration. The file might not be a video or audio file, or lacks bitrate information.") ∧
    (∀ bs : List ℤ, calculate_segment_duration_core ⟨0, bs, none⟩ t =
      .err "Video duration is zero or invalid. Cannot calculate segment duration.") := by
  refine ⟨?_, ?_, ?_, ?_, ?_⟩
  · intro e he hne
    simp only [calculate_segment_duration_core]
    rw [he]
    rw [if_pos (by simp [pyTruthyOpt, hne])]
    simp
  · intro he hd
    simp only [calculate_segment_duration_core]
    rw [he]
    rw [if_neg (by simp [pyTruthyOpt]), if_pos hd]
  · intro he hd hbs
    simp only [calculate_segment_duration_core]
    rw [he]
    rw [if_neg (by simp [pyTruthyOpt]), if_neg (not_le.mpr hd), if_pos hbs]
  · intro he hd hbs hsum
    simp only [calculate_segment_duration_core]
    rw [he]
    rw [if_neg (by simp [pyTruthyOpt]), if_neg (not_le.mpr hd), if_neg hbs, if_pos hsum]
  · intro bs
    simp [calculate_segment_duration_core, pyTruthyOpt]

/-- Witness for C3: each guard fires at a concrete input, and with duration
zero both an empty and a non-empty bitrate list give the duration error. -/
theorem calc_core_guard_order_check :
    calculate_segment_duration_core ⟨1, [2], some "x"⟩ 22 =
      .err ("Failed to get video metadata: " ++ "x") ∧
    calculate_segment_duration_core ⟨0, [3], none⟩ 22 =
      .err "Video duration is zero or invalid. Cannot calculate segment duration." ∧
    calculate_segment_duration_core ⟨5, [], none⟩ 22 =
      .err "No bitrate data found for the video. Cannot estimate segment size." ∧
    calculate_segment_duration_core ⟨5, [0, 0], none⟩ 22 =
      .err "Total bitrate of the video is zero or negative. Cannot calculate segment duration. The file might not be a video or audio file, or lacks bitrate information." ∧
    calculate_segment_duration_core ⟨0, [9], none⟩ 22 =
      .err "Video duration is zero or invalid. Cannot calculate segment duration." :=
  ⟨(calc_core_guard_order ⟨1, [2], some "x"⟩ 22).1 "x" rfl (by simp),
   (calc_core_guard_order ⟨0, [3], none⟩ 22).2.1 rfl (by norm_num),
   (calc_core_guard_order ⟨5, [], none⟩ 22).2.2.1 rfl (by norm_num) rfl,
   (calc_core_guard_order ⟨5, [0, 0], none⟩ 22).2.2.2.1 rfl (by norm_num) (by simp) (by decide),
   (calc_core_guard_order ⟨0, [9], none⟩ 22).2.2.2.2 [9]⟩

/-- C4 counterexample: a metadata value whose error field is set to the
empty string is falsy under the source guard `if metadata.get("error"):`,
so the estimator does not propagate it and instead reports the duration
error. -/
theorem calc_core_empty_error_cex :
    (some "" : Option String).isSome = true ∧
    calculate_segment_duration_core ⟨0, [], some ""⟩ 22 ≠
      .err ("Failed to get video metadata: " ++ "") := by
  refine ⟨rfl, ?_⟩
  have h : calculate_segment_duration_core ⟨0, [], some ""⟩ 22 =
      .err "Video duration is zero or invalid. Cannot calculate segment duration." := by
    simp [calculate_segment_duration_core, pyTruthyOpt]
  rw [h]
  simp

/-- C4 (amended): for every metadata whose error field is set to a
non-empty string, regardless of the numeric fields, the estimator returns
the error consisting of the fixed prefix followed by the underlying
message. -/
theorem calc_core_propagates_nonempty_error (m : VideoMetadata) (t : ℚ) (e : String)
    (he : m.error = some e) (hne : e ≠ "") :
    calculate_segment_duration_core m t =
      .err ("Failed to get video metadata: " ++ e) := by
  simp only [calculate_segment_duration_core]
  rw [he]
  rw [if_pos (by simp [pyTruthyOpt, hne])]
  simp

/-- Witness for C4 (amended), at a metadata value carrying the message
`boom`. -/
theorem calc_core_propagates_nonempty_error_check :
    calculate_segment_duration_core ⟨7, [1], some "boom"⟩ 5 =
      .err ("Failed to get video metadata: " ++ "boom") :=
  calc_core_propagates_nonempty_error ⟨7, [1], some "boom"⟩ 5 "boom" rfl (by simp)

/-- C5: Scenario B — duration 3600 s, one 5,000,000 bps stream, target
22 MB: the estimator succeeds with a 5 Mbps total bitrate, a segment
duration of 176/5 = 35.2 s, and 103 estimated segments. -/
theorem calc_core_scenario_b :
    calculate_segment_duration_core ⟨3600, [5000000], none⟩ 22 =
      .ok 5 (176 / 5) 3600 103 := by
  simp only [calculate_segment_duration_core, pyTruthyOpt]
  norm_num
  rw [Int.ceil_eq_iff]
  norm_num

/-- C6: for fixed metadata passing all guards, doubling a positive target
size exactly doubles `safe_segment_duration_sec`, and the estimated segment
count is non-increasing in the target size. -/
theorem calc_core_target_scaling (m : VideoMetadata) (t t1 t2 : ℚ)
    (he : m.error = none) (hd : 0 < m.total_duration_sec)
    (hbs : m.stream_bitrates_bps ≠ []) (hsum : 0 < m.stream_bitrates_bps.sum)
    (ht : 0 < t) (ht1 : 0 < t1) (h12 : t1 ≤ t2) :
    (calculate_segment_duration_core m (2 * t)).safeDur =
      Option.map (fun x => 2 * x) (calculate_segment_duration_core m t).safeDur ∧
    ∃ n1 n2 : ℤ,
      (calculate_segment_duration_core m t1).segCount = some n1 ∧
      (calculate_segment_duration_core m t2).segCount = some n2 ∧
      n2 ≤ n1 := by
  have ht2 : 0 < t2 := lt_of_lt_of_le ht1 h12
  have hsumQ : (0 : ℚ) < (m.stream_bitrates_bps.sum : ℚ) := by exact_mod_cast hsum
  constructor
  · rw [calc_core_pos_eq m (2 * t) he hd hbs hsum (by positivity),
      calc_core_pos_eq m t he hd hbs hsum ht]
    simp only [SegResult.safeDur, Option.map]
    congr 1
    ring
  · refine ⟨⌈m.total_duration_sec /
        (t1 * 8 / ((m.stream_bitrates_bps.sum : ℚ) / 1000000))⌉,
      ⌈m.total_duration_sec /
        (t2 * 8 / ((m.stream_bitrates_bps.sum : ℚ) / 1000000))⌉, ?_, ?_, ?_⟩
    · rw [calc_core_pos_eq m t1 he hd hbs hsum ht1]
      rfl
    · rw [calc_core_pos_eq m t2 he hd hbs hsum ht2]
      rfl
    · apply Int.ceil_le_ceil
      apply div_le_div_of_nonneg_left (le_of_lt hd) (by positivity)
      apply div_le_div_of_nonneg_right (by linarith) (by positivity)

/-- Witness for C6: duration 120 s, one 4,000,000 bps stream, targets 2/4 MB
for the doubling part and 3/5 MB for the monotonicity part. -/
theorem calc_core_target_scaling_check :
    (calculate_segment_duration_core ⟨120, [4000000], none⟩ (2 * 2)).safeDur =
      Option.map (fun x => 2 * x)
        (calculate_segment_duration_core ⟨120, [4000000], none⟩ 2).safeDur ∧
    ∃ n1 n2 : ℤ,
      (calculate_segment_duration_core ⟨120, [4000000], none⟩ 3).segCount = some n1 ∧
      (calculate_segment_duration_core ⟨120, [4000000], none⟩ 5).segCount = some n2 ∧
      n2 ≤ n1 :=
  calc_core_target_scaling ⟨120, [4000000], none⟩ 2 3 5 rfl (by norm_num) (by simp)
    (by decide) (by norm_num) (by norm_num) (by norm_num)

/-- C8: when every guard passes and the target size is positive, the
defensive branch is unreachable — the computed segment duration is strictly
positive and the estimator does not return the defensive error. -/
theorem calc_core_defensive_unreachable (m : VideoMetadata) (t : ℚ)
    (he : m.error = none) (hd : 0 < m.total_duration_sec)
    (hbs : m.stream_bitrates_bps ≠ []) (hsum : 0 < m.stream_bitrates_bps.sum)
    (ht : 0 < t) :
    (∃ mb s dur n, calculate_segment_duration_core m t = .ok mb s dur n ∧ 0 < s) ∧
    calculate_segment_duration_core m t ≠
      .err "Calculated segment duration is zero or negative. Check bitrate and target size." := by
  have hsumQ : (0 : ℚ) < (m.stream_bitrates_bps.sum : ℚ) := by exact_mod_cast hsum
  rw [calc_core_pos_eq m t he hd hbs hsum ht]
  refine ⟨⟨_, _, _, _, rfl, by positivity⟩, by simp⟩

/-- Witness for C8: duration 60 s, one 1,000,000 bps stream, target 1 MB. -/
theorem calc_core_defensive_unreachable_check :
    (∃ mb s dur n,
      calculate_segment_duration_core ⟨60, [1000000], none⟩ 1 = .ok mb s dur n ∧ 0 < s) ∧
    calculate_segment_duration_core ⟨60, [1000000], none⟩ 1 ≠
      .err "Calculated segment duration is zero or negative. Check bitrate and target size." :=
  calc_core_defensive_unreachable ⟨60, [1000000], none⟩ 1 rfl (by norm_num) (by simp)
    (by decide) (by norm_num)

/-- C10: when every guard passes but the target size is zero or negative,
the estimator returns the defensive error message as data. -/
theorem calc_core_nonpositive_target (m : VideoMetadata) (t : ℚ)
    (he : m.error = none) (hd : 0 < m.total_duration_sec)
    (hbs : m.stream_bitrates_bps ≠ []) (hsum : 0 < m.stream_bitrates_bps.sum)
    (ht : t ≤ 0) :
    calculate_segment_duration_core m t =
      .err "Calculated segment duration is zero or negative. Check bitrate and target size." := by
  have hsumQ : (0 : ℚ) < (m.stream_bitrates_bps.sum : ℚ) := by exact_mod_cast hsum
  have hsafe : t * 8 / ((m.stream_bitrates_bps.sum : ℚ) / 1000000) ≤ 0 :=
    div_nonpos_iff.mpr (Or.inr ⟨by linarith, by positivity⟩)
  simp only [calculate_segment_duration_core]
  rw [he]
  rw [if_neg (by simp [pyTruthyOpt]), if_neg (not_le.mpr hd), if_neg hbs,
    if_neg (not_le.mpr hsum), if_pos hsafe]

/-- Witness for C10: duration 10 s, one 8,000,000 bps stream, target 0 MB. -/
theorem calc_core_nonpositive_target_check :
    calculate_segment_duration_core ⟨10, [8000000], none⟩ 0 =
      .err "Calculated segment duration is zero or negative. Check bitrate and target size." :=
  calc_core_nonpositive_target ⟨10, [8000000], none⟩ 0 rfl (by norm_num) (by simp)
    (by decide) (by norm_num)

/-- C1 (code-bug exhibit): a successful probe whose JSON report carries a
non-numeric `format.duration` makes the adapter raise `ValueError` out of
`get_video_metadata` — the `except` clauses catch only
`CalledProcessError`, `JSONDecodeError` and `FileNotFoundError`, so the
failure does not resolve to a `VideoMetadata` with `error` set. -/
theorem gvm_unparsable_duration_raises :
    get_video_metadata "video.mp4"
        ⟨true, .jsonOutput (.ok (.dict [("format", .dict [("duration", .str "abc")])]))⟩ =
      .error (.valueError "could not convert string to float: abc") := rfl

/-- C7 counterexample: a successful probe reporting `duration = "0"` makes
the adapter return placeholder fields (duration 0, empty bitrate list) with
no error, so "error set ⇔ fields are placeholders" fails from right to
left. -/
theorem gvm_placeholder_no_error_cex :
    get_video_metadata "video.mp4"
        ⟨true, .jsonOutput (.ok (.dict [("format", .dict [("duration", .str "0")])]))⟩ =
      .ok ⟨0, [], none⟩ ∧
    ¬ ((Option.isSome (none : Option String) = true) ↔
        ((0 : ℚ) = 0 ∧ ([] : List ℤ) = [])) := by
  refine ⟨rfl, ?_⟩
  simp

/-- C7 (amended): every `VideoMetadata` the adapter returns with `error`
set has placeholder numeric fields — duration 0 and an empty bitrate list.
(The converse direction of the claimed equivalence is false.) -/
theorem gvm_error_implies_placeholders (path : String) (env : ProbeEnv)
    (m : VideoMetadata) (e : String)
    (hm : get_video_metadata path env = .ok m) (he : m.error = some e) :
    m.total_duration_sec = 0 ∧ m.stream_bitrates_bps = [] := by
  unfold get_video_metadata at hm
  split at hm
  · split at hm
    · simp only [Except.ok.injEq] at hm
      subst hm
      exact ⟨rfl, rfl⟩
    · simp only [Except.ok.injEq] at hm
      subst hm
      exact ⟨rfl, rfl⟩
    · simp only [Except.ok.injEq] at hm
      subst hm
      exact ⟨rfl, rfl⟩
    · exact gvm_body_error _ _ _ hm he
  · simp only [Except.ok.injEq] at hm
    subst hm
    exact ⟨rfl, rfl⟩

/-- Witness for C7 (amended): the missing-file path returns an error with
placeholder fields. -/
theorem gvm_error_implies_placeholders_check :
    get_video_metadata "a" ⟨false, .fileNotFound⟩ =
      .ok ⟨0, [], some ("File not found: " ++ "a")⟩ ∧
    ((0 : ℚ) = 0 ∧ ([] : List ℤ) = []) :=
  ⟨rfl, gvm_error_implies_placeholders "a" ⟨false, .fileNotFound⟩
    ⟨0, [], some ("File not found: " ++ "a")⟩ ("File not found: " ++ "a") rfl rfl⟩

/-- C9 counterexample: a container-level `bit_rate` equal to the JSON
number 0 is present and parses as the integer 0, yet the fallback leaves
the bitrate list empty because the raw value is falsy under
`if format_bit_rate:`. -/
theorem fallback_zero_bitrate_cex :
    formatBitRate
        (.dict [("format", .dict [("duration", .str "10"), ("bit_rate", .intv 0)])]) =
      .ok (.intv 0) ∧
    pyInt (.intv 0) = .ok 0 ∧
    streamsPhase
        (.dict [("format", .dict [("duration", .str "10"), ("bit_rate", .intv 0)])]) =
      .ok [] ∧
    collectAllBitrates
        (.dict [("format", .dict [("duration", .str "10"), ("bit_rate", .intv 0)])]) 10 =
      .ok [] := by
  refine ⟨rfl, rfl, rfl, ?_⟩
  simp [collectAllBitrates, streamsPhase, pyContains, formatBitRate, pyGetDefault,
    pyTruthy, pyInt, pySubscript, pyIter, collectBitrates, List.lookup]

/-- C9 (amended): when the per-stream collection is empty, the duration is
positive, and the container-level bit rate is present with a truthy raw
value that parses as an integer, the resulting bitrate list is exactly that
single value. -/
theorem fallback_uses_format_bitrate (doc : PyVal) (d : ℚ) (v : PyVal) (n : ℤ)
    (hs : streamsPhase doc = .ok []) (hd : 0 < d)
    (hv : formatBitRate doc = .ok v) (htr : pyTruthy v = true)
    (hn : pyInt v = .ok n) :
    collectAllBitrates doc d = .ok [n] := by
  simp only [collectAllBitrates, hs]
  rw [if_pos ⟨trivial, hd⟩]
  simp only [hv, htr, if_true, hn]

/-- Witness for C9 (amended): no streams, duration 7, container bit rate
given as the string 3000000. -/
theorem fallback_uses_format_bitrate_check :
    collectAllBitrates (.dict [("format", .dict [("bit_rate", .str "3000000")])]) 7 =
      .ok [3000000] :=
  fallback_uses_format_bitrate (.dict [("format", .dict [("bit_rate", .str "3000000")])])
    7 (.str "3000000") 3000000 rfl (by norm_num) rfl rfl rfl
